import Mathlib

/-!
Shallow embedding of `src/python/quarantine.py` (vmt-action-quarantine).

Python dictionaries/JSON values are modelled by the inductive `Dto`;
Python's `None`-vs-string fields are modelled by `Option String`, with
Python truthiness of such a field captured by `truthyStr` (both `None`
and the empty string are falsy).  The external timestamp parser
`read_isodate` (iso8601 / dateutil, an external collaborator) is a
parameter `parse : String → Option Int`: `none` models a raised parse
error; a `createTime` of `None` always fails to parse, as
`read_isodate(None)` raises.  Exceptions are modelled with `Except`.
-/

namespace Quarantine

/-- Python truthiness of an optional string field: `None` and `""` are falsy. -/
def truthyStr : Option String → Bool
  | none => false
  | some s => s ≠ ""

/-- Model of `Event.__init__`: the wrapper for a VMT action DTO
(`actionType`, `targetSE.entityType`, `uuid`, `actionState`, `createTime`). -/
structure Event where
  actionType : String
  entityType : Option String
  uuid : String
  result : Option String
  createTime : Option String
deriving Repr, DecidableEq

/-- Model of the `Patient.__init__` result: the wrapper for the action-script entity DTO.
`tags` and `vendorIds` start empty and are only populated by `get_entity`. -/
structure Patient where
  triggerEvent : Event
  actionState : String
  uuid : String
  tags : List String := []
  vendorIds : List (String × String) := []
deriving Repr, DecidableEq

/-- The `Diagnostician.__init__` fields taken from a `quarantineRules` config entry:
`actionType` required, `entityType` optional, `lookbackHours` default 720,
`failureCount` default 1, `attemptCount` optional.  Wards are identified by
the numeric identities handed out by the ward factory model below. -/
structure Diagnostician where
  actionType : String
  entityType : Option String
  lookbackHours : Int := 720
  failureCount : Int := 1
  attemptCount : Option Int := none
  wards : List Nat := []
deriving Repr, DecidableEq

/-- Model of `Diagnostician.triage`: the two `if` tests of the source, using Python
truthiness for `not self.entityType` and Python `==` on the optional
`entityType` fields (where `None == None` is true). -/
def triage (d : Diagnostician) (p : Patient) : Bool :=
  if d.actionType == p.triggerEvent.actionType && !(truthyStr d.entityType) then
    true
  else if d.actionType == p.triggerEvent.actionType
      && d.entityType == p.triggerEvent.entityType then
    true
  else
    false

/-- Python `str.lower()` (ASCII casefolding, character by character; the
outcome strings are ASCII).  Defined over the character list so that it
evaluates by kernel reduction. -/
def lowerStr (s : String) : String :=
  String.mk (s.data.map Char.toLower)

/-- The filter predicate of `diagnose`:
`a.result and a.result.lower() == 'failed'`. -/
def isFailedAction (a : Event) : Bool :=
  truthyStr a.result && lowerStr (a.result.getD "") == "failed"

/-- Python slice `xs[k:]` for a possibly negative `k`
(`diagnose` uses `sortedEvents[self.attemptCount * -1:]`). -/
def pySliceFrom (k : Int) (xs : List Event) : List Event :=
  if 0 ≤ k then xs.drop k.toNat
  else xs.drop (xs.length - (-k).toNat)

/-- The sort key `read_isodate(action.createTime)`: a `createTime` of `None`
never parses (`read_isodate(None)` raises). -/
def eventKey (parse : String → Option Int) (e : Event) : Option Int :=
  e.createTime.bind parse

/-- Whether `sorted(events, key=...)` completes without a raised parse error:
every event's `createTime` must parse. -/
def allParsable (parse : String → Option Int) (events : List Event) : Bool :=
  events.all fun e => (eventKey parse e).isSome

/-- Model of `sorted(events, key=lambda action: read_isodate(action.createTime))`:
Python's stable ascending sort by the parsed timestamp (meaningful when
`allParsable` holds), modelled by the stable `List.insertionSort`. -/
def sortByCreateTime (parse : String → Option Int) (events : List Event) :
    List Event :=
  events.insertionSort fun a b =>
    (eventKey parse a).getD 0 ≤ (eventKey parse b).getD 0

/-- The raised exceptions `diagnose` does not catch. -/
inductive DiagError where
  | unparsableTimestamp
deriving Repr, DecidableEq

deriving instance DecidableEq for Except

/-- Model of `Diagnostician.diagnose`.  The history collaborator's response is the
argument `fetched`: `some events` is the event list built by
`Patient.get_events`, while `none` models the `IndexError` that
`get_events` raises when the API response has no first page — the one
exception `diagnose` catches (yielding a negative diagnosis).  A failed
timestamp parse during sorting is not caught and surfaces as
`DiagError.unparsableTimestamp`. -/
def diagnose (d : Diagnostician) (p : Patient) (parse : String → Option Int)
    (fetched : Option (List Event)) : Except DiagError Bool :=
  if d.failureCount == 1
      && (p.actionState == "FAILING" || p.actionState == "FAILED") then
    .ok true
  else
    match fetched with
    | none => .ok false
    | some events =>
      if allParsable parse events then
        let sortedEvents := sortByCreateTime parse events
        let windowed :=
          match d.attemptCount with
          | some w => if w != 0 then pySliceFrom (w * -1) sortedEvents
                      else sortedEvents
          | none => sortedEvents
        let failedActions := windowed.filter isFailedAction
        .ok (decide ((failedActions.length : Int) ≥ d.failureCount))
      else
        .error .unparsableTimestamp

/-- The specification's notion of a failed event: its `outcome` is present
and, case-insensitively, equals `failed`. -/
def isSpecFailed (e : Event) : Bool :=
  match e.result with
  | some s => lowerStr s == "failed"
  | none => false

/-- The count the specification speaks about: events whose `outcome`,
case-insensitively, equals `failed`. -/
def specFailedCount (events : List Event) : Nat :=
  events.countP isSpecFailed

/-! ### JSON/dict values and construction from raw DTOs -/

/-- A Python/JSON value as handled by the script. -/
inductive Dto where
  | str (s : String)
  | num (n : Int)
  | arr (xs : List Dto)
  | obj (kvs : List (String × Dto))

/-- The Python exceptions Event/Patient construction can raise. -/
inductive PyErr where
  | keyError (k : String)
  | indexError
  | typeError
deriving Repr, DecidableEq

/-- Indexing `d[k]` on a dict: `KeyError` when the key is missing, `TypeError`
when `d` is not a dict. -/
def Dto.reqKey : Dto → String → Except PyErr Dto
  | .obj kvs, k =>
    match kvs.find? fun kv => kv.1 == k with
    | some kv => .ok kv.2
    | none => .error (.keyError k)
  | _, _ => .error .typeError

/-- Lookup `d.get(k)` on a dict: `None` when the key is missing. -/
def Dto.optKey : Dto → String → Except PyErr (Option Dto)
  | .obj kvs, k => .ok ((kvs.find? fun kv => kv.1 == k).map fun kv => kv.2)
  | _, _ => .error .typeError

/-- Indexing `d[i]` on a list: `IndexError` when out of range. -/
def Dto.reqIdx : Dto → Nat → Except PyErr Dto
  | .arr xs, i =>
    match xs.get? i with
    | some v => .ok v
    | none => .error .indexError
  | _, _ => .error .typeError

/-- Read a value as a string (the string-valued DTO fields are assumed to
hold strings; a non-string is reported eagerly as a `TypeError`, where
Python would defer the failure to the value's first string use). -/
def Dto.asStr : Dto → Except PyErr String
  | .str s => .ok s
  | _ => .error .typeError

/-- As `Dto.asStr`, for an optional (possibly missing) value. -/
def Dto.optStr : Option Dto → Except PyErr (Option String)
  | none => .ok none
  | some v => do pure (some (← v.asStr))

/-- Model of `Event.__init__(actionDto)`, in source order: `actionType` and `uuid`
are required (`KeyError` when missing), `targetSE.entityType`,
`actionState` and `createTime` fall back to `None`. -/
def Event.ofDto (actionDto : Dto) : Except PyErr Event := do
  let actionType ← (← actionDto.reqKey "actionType").asStr
  let targetSE := (← actionDto.optKey "targetSE").getD (.obj [])
  let entityType ← Dto.optStr (← targetSE.optKey "entityType")
  let uuid ← (← actionDto.reqKey "uuid").asStr
  let result ← Dto.optStr (← actionDto.optKey "actionState")
  let createTime ← Dto.optStr (← actionDto.optKey "createTime")
  pure { actionType, entityType, uuid, result, createTime }

/-- Model of `Patient.__init__(actionScriptDto)`, in source order:
`actionScriptDto['actionItem'][0]['targetSE']` first, then the trigger
`Event`, then the required top-level `actionState`, then the entity's
`turbonomicInternalId`.  `tags` and `vendorIds` start empty. -/
def Patient.ofDto (actionScriptDto : Dto) : Except PyErr Patient := do
  let item0 ← (← actionScriptDto.reqKey "actionItem").reqIdx 0
  let entity ← item0.reqKey "targetSE"
  let triggerEvent ← Event.ofDto item0
  let actionState ← (← actionScriptDto.reqKey "actionState").asStr
  let uuid ← (← entity.reqKey "turbonomicInternalId").asStr
  pure { triggerEvent, actionState, uuid }

/-! ### The group-membership ward (`VmtWard`) -/

/-- The observable state of the static group backing a `VmtWard`:
its current member DTOs as returned by `get_group_members`. -/
structure GroupState where
  members : List Dto

/-- Model of `VmtWard.discharge_eligible_patients`: fetch the members, overwrite the
group's member list with `[]`, then build a `Patient` from each former
member DTO.  The overwrite happens before the list comprehension runs, so
the group is cleared even when a `Patient` construction raises. -/
def discharge_eligible_patients (st : GroupState) :
    GroupState × Except PyErr (List Patient) :=
  (⟨[]⟩, st.members.mapM Patient.ofDto)

/-! ### The ward factory (`WardFactory`) -/

/-- A ward-construction config entry (`quarantineMethods` item): `type`
required; `groupName`/`groupType` are the fields the `vmt` type reads. -/
structure WardConfig where
  type : String
  groupName : String := ""
  groupType : String := ""
deriving Repr, DecidableEq

/-- Model of `WardFactory._unique_ward_key`: `f"{type}-{groupName}"` for the `vmt`
type, the bare `type` otherwise. -/
def uniqueWardKey (c : WardConfig) : String :=
  if c.type == "vmt" then c.type ++ "-" ++ c.groupName else c.type

/-- The factory's mutable state: the `_ward_cache` dict (key to ward),
with ward instances identified by allocation order (`nextId` counts the
constructed wards; Python object identity is modelled by these ids). -/
structure WardFactory where
  cache : List (String × Nat)
  nextId : Nat
deriving Repr, DecidableEq

/-- Model of `WardFactory.__init__`: an empty cache. -/
def WardFactory.init : WardFactory := ⟨[], 0⟩

/-- Model of `WardFactory.get_ward`: return the cached ward for the config's key,
constructing (allocating a fresh identity) and caching on a miss. -/
def getWard (st : WardFactory) (c : WardConfig) : WardFactory × Nat :=
  match st.cache.find? fun kv => kv.1 == uniqueWardKey c with
  | some kv => (st, kv.2)
  | none => (⟨(uniqueWardKey c, st.nextId) :: st.cache, st.nextId + 1⟩, st.nextId)

/-! ### The top-level admit-mode run -/

/-- What the `__main__` loop records for one diagnostician. -/
inductive RuleOutcome where
  | skipped
  | negative
  | admitted
deriving Repr, DecidableEq

/-- The `__main__` admit-mode loop over the configured diagnosticians,
with the surrounding `try`/`except`: for each rule, `triage`, then
`diagnose`, then (on a positive diagnosis) `get_entity` and `admit`.  The
whole loop sits inside one `try`, so an exception raised by any rule's
`diagnose` leaves the loop at once; the top-level handler logs it (the
returned `Option DiagError`) and the process ends.  `fetch` gives the
history collaborator's response for each rule's query. -/
def runAdmitMode (parse : String → Option Int)
    (fetch : Diagnostician → Option (List Event)) (p : Patient) :
    List Diagnostician → List RuleOutcome × Option DiagError
  | [] => ([], none)
  | d :: rest =>
    if triage d p then
      match diagnose d p parse (fetch d) with
      | .error e => ([], some e)
      | .ok true =>
        let r := runAdmitMode parse fetch p rest
        (.admitted :: r.1, r.2)
      | .ok false =>
        let r := runAdmitMode parse fetch p rest
        (.negative :: r.1, r.2)
    else
      let r := runAdmitMode parse fetch p rest
      (.skipped :: r.1, r.2)

/-! ### Concrete fixtures used by witnesses and counterexamples -/

/-- A concrete stand-in for `read_isodate` on concrete inputs: nonempty
decimal digit strings parse to their value, everything else raises.
Defined over the character list so that it evaluates by kernel
reduction. -/
def natParse : String → Option Int := fun s =>
  if s.data ≠ [] ∧ s.data.all Char.isDigit then
    some (Int.ofNat (s.data.foldl (fun a c => 10 * a + (c.toNat - 48)) 0))
  else none

/-- A concrete history event for a `MOVE` action. -/
def mkEvent (t : String) (r : Option String) : Event :=
  { actionType := "MOVE", entityType := none, uuid := "u1", result := r,
    createTime := some t }

/-- A concrete triggering event for a `MOVE` action. -/
def trigMove : Event :=
  { actionType := "MOVE", entityType := none, uuid := "t1", result := none,
    createTime := none }

/-- A subject whose triggering action succeeded. -/
def subjSucceeded : Patient :=
  { triggerEvent := trigMove, actionState := "SUCCEEDED", uuid := "p1" }

/-- A subject whose triggering action failed. -/
def subjFailed : Patient :=
  { triggerEvent := trigMove, actionState := "FAILED", uuid := "p1" }

/-- A concrete triggering `MOVE` event against a `VIRTUAL_MACHINE`. -/
def trigMoveVM : Event :=
  { actionType := "MOVE", entityType := some "VIRTUAL_MACHINE", uuid := "t1",
    result := none, createTime := none }

/-- A subject whose triggering event targets a `VIRTUAL_MACHINE`. -/
def subjTrigVM : Patient :=
  { triggerEvent := trigMoveVM, actionState := "SUCCEEDED", uuid := "p1" }

/-! ### Helper lemmas -/

/-- The source's filter predicate
(`a.result and a.result.lower() == 'failed'`) agrees with the spec's
"outcome case-insensitively equals `failed`": the truthiness guard never
changes the verdict because the empty string does not lower to
`"failed"`. -/
theorem isFailedAction_eq_spec (e : Event) :
    isFailedAction e = isSpecFailed e := by
  unfold isFailedAction isSpecFailed
  cases e.result with
  | none => rfl
  | some s =>
    by_cases hs : s = ""
    · subst hs; decide
    · simp [truthyStr, hs]

/-- The count `specFailedCount` matches exactly the events the source's filter keeps. -/
theorem specFailedCount_eq_filter (l : List Event) :
    specFailedCount l = (l.filter isFailedAction).length := by
  unfold specFailedCount
  rw [← List.countP_eq_length_filter]
  exact List.countP_congr fun e _ => by rw [isFailedAction_eq_spec]

/-- Sorting by timestamp does not change the failed count. -/
theorem specFailedCount_sort (parse : String → Option Int)
    (events : List Event) :
    specFailedCount (sortByCreateTime parse events) = specFailedCount events := by
  unfold specFailedCount sortByCreateTime
  exact (List.perm_insertionSort _ events).countP_eq _

/-- The fast-path condition of `diagnose`, as a Boolean, is false exactly
when its propositional reading fails. -/
theorem fastPathCond_eq_false (d : Diagnostician) (p : Patient)
    (h : ¬(d.failureCount = 1 ∧
      (p.actionState = "FAILING" ∨ p.actionState = "FAILED"))) :
    (d.failureCount == 1
      && (p.actionState == "FAILING" || p.actionState == "FAILED")) = false := by
  rw [Bool.eq_false_iff]
  intro hb
  apply h
  simpa [Bool.and_eq_true, Bool.or_eq_true, beq_iff_eq] using hb

/-- C1: For every rule without an `attemptWindow` and every subject with a
fetched history (so the fast path did not fire and the fetch happened) in
which every timestamp parses, `diagnose` returns positive when the number
of events whose outcome case-insensitively equals `failed` is at least
`failureCount`, and negative when that count is below `failureCount`. -/
theorem diagnose_threshold_no_window (d : Diagnostician) (p : Patient)
    (parse : String → Option Int) (events : List Event)
    (hwin : d.attemptCount = none)
    (hfast : ¬(d.failureCount = 1 ∧
      (p.actionState = "FAILING" ∨ p.actionState = "FAILED")))
    (hparse : allParsable parse events = true) :
    (d.failureCount ≤ (specFailedCount events : Int) →
      diagnose d p parse (some events) = Except.ok true) ∧
    ((specFailedCount events : Int) < d.failureCount →
      diagnose d p parse (some events) = Except.ok false) := by
  have hb := fastPathCond_eq_false d p hfast
  have hkey : diagnose d p parse (some events) =
      Except.ok (decide (d.failureCount ≤
        (((sortByCreateTime parse events).filter isFailedAction).length : Int))) := by
    simp [diagnose, hb, hparse, hwin, ge_iff_le]
  have hcnt : ((sortByCreateTime parse events).filter isFailedAction).length
      = specFailedCount events := by
    rw [← specFailedCount_eq_filter, specFailedCount_sort]
  rw [hkey, hcnt]
  constructor
  · intro h; simp [h]
  · intro h; simp [not_le.mpr h]

/-- Witness for C1: threshold 2, two `FAILED` events → positive. -/
theorem diagnose_threshold_no_window_witness :
    diagnose { actionType := "MOVE", entityType := none, failureCount := 2 }
      subjSucceeded natParse
      (some [mkEvent "1" (some "FAILED"), mkEvent "2" (some "FAILED")]) =
      Except.ok true :=
  (diagnose_threshold_no_window _ _ _ _ rfl (by decide) (by decide)).1 (by decide)

/-- C4 (amended: `attemptWindow ≥ 1`; see the counterexample at 0): with a
positive `attemptCount w`, `diagnose` counts failures only among the last
`w` events of the history sorted ascending by parsed timestamp (the drop
of all but the final `min w n`), and a history no longer than `w` is used
whole, without padding. -/
theorem diagnose_attempt_window (d : Diagnostician) (p : Patient)
    (parse : String → Option Int) (events : List Event) (w : Int)
    (hwin : d.attemptCount = some w) (hw : 1 ≤ w)
    (hfast : ¬(d.failureCount = 1 ∧
      (p.actionState = "FAILING" ∨ p.actionState = "FAILED")))
    (hparse : allParsable parse events = true) :
    (diagnose d p parse (some events) = Except.ok (decide (d.failureCount ≤
      (specFailedCount ((sortByCreateTime parse events).drop
        ((sortByCreateTime parse events).length - w.toNat)) : Int)))) ∧
    (events.length ≤ w.toNat →
      (sortByCreateTime parse events).drop
        ((sortByCreateTime parse events).length - w.toNat) =
      sortByCreateTime parse events) := by
  have hb := fastPathCond_eq_false d p hfast
  have hne : (w != 0) = true := by simp [bne_iff_ne]; omega
  have hle : ¬ w ≤ 0 := by omega
  have hcan : -(w * -1) = w := by ring
  constructor
  · have hkey : diagnose d p parse (some events) =
        Except.ok (decide (d.failureCount ≤
          ((((sortByCreateTime parse events).drop
            ((sortByCreateTime parse events).length - w.toNat)).filter
              isFailedAction).length : Int))) := by
      simp [diagnose, hb, hparse, hwin, hne, pySliceFrom, hle, hcan, ge_iff_le]
    rw [hkey, ← specFailedCount_eq_filter]
  · intro hlen
    have hsl : (sortByCreateTime parse events).length = events.length :=
      (List.perm_insertionSort _ events).length_eq
    have : (sortByCreateTime parse events).length - w.toNat = 0 := by omega
    rw [this, List.drop_zero]

/-- C4 counterexample: a rule whose `attemptWindow` is present but `0`.
The claim, read at `w = 0`, demands that failures outside the last `0`
events (an empty suffix, so a failed count of `0 < failureCount`) never
yield a positive diagnosis; the code's `if self.attemptCount:` treats `0`
as unset, applies no truncation, and diagnoses positive here. -/
theorem diagnose_attempt_window_cex :
    diagnose { actionType := "MOVE", entityType := none, failureCount := 1,
               attemptCount := some 0 }
      subjSucceeded natParse (some [mkEvent "1" (some "FAILED")]) =
      Except.ok true ∧
    specFailedCount ((sortByCreateTime natParse [mkEvent "1" (some "FAILED")]).drop
      ((sortByCreateTime natParse [mkEvent "1" (some "FAILED")]).length -
        (0 : Int).toNat)) = 0 := by
  decide

/-- Witness for C4: threshold 2, window 3, history `[S, F, F]` → positive. -/
theorem diagnose_attempt_window_witness :
    diagnose { actionType := "MOVE", entityType := none, failureCount := 2,
               attemptCount := some 3 }
      subjSucceeded natParse
      (some [mkEvent "1" (some "SUCCEEDED"), mkEvent "2" (some "FAILED"),
             mkEvent "3" (some "FAILED")]) = Except.ok true := by
  rw [(diagnose_attempt_window _ _ _ _ 3 rfl (by decide) (by decide)
    (by decide)).1]
  decide

/-- C9: an `attemptCount` that is present but `0` is falsy in the source's
`if self.attemptCount:` guard, so no truncation happens: `diagnose`
behaves exactly as if `attemptCount` were absent, on every input. -/
theorem diagnose_zero_window (d : Diagnostician) (p : Patient)
    (parse : String → Option Int) (fetched : Option (List Event)) :
    diagnose { d with attemptCount := some 0 } p parse fetched =
    diagnose { d with attemptCount := none } p parse fetched := by
  cases fetched with
  | none => simp [diagnose]
  | some events => simp [diagnose]

/-- C5: with `failureCount = 1` and a triggering `actionState` of
`FAILING` or `FAILED`, `diagnose` is positive and the history collaborator
is never consulted: the result is `ok true` for every possible collaborator
response `fetched` — including `none` (the raising empty response) and
histories with unparsable timestamps — so no fetch can influence it. -/
theorem diagnose_fast_path (d : Diagnostician) (p : Patient)
    (parse : String → Option Int) (fetched : Option (List Event))
    (h1 : d.failureCount = 1)
    (h2 : p.actionState = "FAILING" ∨ p.actionState = "FAILED") :
    diagnose d p parse fetched = Except.ok true := by
  have hc : (d.failureCount == 1
      && (p.actionState == "FAILING" || p.actionState == "FAILED")) = true := by
    rcases h2 with h | h <;> simp [h1, h]
  simp [diagnose, hc]

/-- Witness for C5: threshold 1, `FAILED` subject; the diagnosis is `ok
true` both for the raising empty response and for a history whose
timestamp could not even be parsed. -/
theorem diagnose_fast_path_witness :
    diagnose { actionType := "MOVE", entityType := none } subjFailed
      natParse none = Except.ok true ∧
    diagnose { actionType := "MOVE", entityType := none } subjFailed
      natParse (some [mkEvent "bogus" (some "SUCCEEDED")]) = Except.ok true :=
  ⟨diagnose_fast_path _ _ _ _ rfl (Or.inr rfl),
   diagnose_fast_path _ _ _ _ rfl (Or.inr rfl)⟩

/-- C7: when the fast path does not apply and the rule's threshold is a
well-formed `failureCount ≥ 1` (the data model's invariant), a history
lookup that yields no events — the empty event list, or the raising empty
API response that `get_events` turns into an `IndexError` — produces a
negative diagnosis and no error. -/
theorem diagnose_empty_history (d : Diagnostician) (p : Patient)
    (parse : String → Option Int) (fetched : Option (List Event))
    (hfast : ¬(d.failureCount = 1 ∧
      (p.actionState = "FAILING" ∨ p.actionState = "FAILED")))
    (hthr : 1 ≤ d.failureCount)
    (hempty : fetched = none ∨ fetched = some []) :
    diagnose d p parse fetched = Except.ok false := by
  have hb := fastPathCond_eq_false d p hfast
  have hnle : ¬ (d.failureCount ≤ ((0 : Nat) : Int)) := by
    simp only [Nat.cast_zero]; omega
  rcases hempty with h | h <;> subst h
  · simp [diagnose, hb]
  · cases hA : d.attemptCount with
    | none =>
      simp [diagnose, hb, hA, allParsable, sortByCreateTime, ge_iff_le, hnle]
      omega
    | some w =>
      simp [diagnose, hb, hA, allParsable, sortByCreateTime, pySliceFrom,
        ge_iff_le, hnle]
      omega

/-- Witness for C7: threshold 2, empty history → `ok false`. -/
theorem diagnose_empty_history_witness :
    diagnose { actionType := "MOVE", entityType := none, failureCount := 2 }
      subjSucceeded natParse (some []) = Except.ok false :=
  diagnose_empty_history _ _ _ _ (by decide) (by decide) (Or.inr rfl)

/-- A falsy rule `entityType` is exactly `None` or the empty string. -/
theorem truthyStr_eq_false_iff (o : Option String) :
    truthyStr o = false ↔ o = none ∨ o = some "" := by
  cases o with
  | none => simp [truthyStr]
  | some s => by_cases hs : s = "" <;> simp [truthyStr, hs]

/-- C6 counterexample: a rule whose `entityType` is the empty string (a
present `subjectKind` that differs from the trigger's `subjectKind`).
The claim demands `triage = false`; the source's `not self.entityType`
treats the empty string as absent, so `triage` returns `true`. -/
theorem triage_truthiness_cex :
    triage { actionType := "MOVE", entityType := some "" } subjTrigVM = true ∧
    subjTrigVM.triggerEvent.entityType = some "VIRTUAL_MACHINE" ∧
    (some "" : Option String) ≠ none ∧
    (some "" : Option String) ≠ some "VIRTUAL_MACHINE" := by
  decide

/-- C6 (amended: "absent" must read "absent or empty", Python falsy):
`triage` returns true iff the rule's `actionType` equals the trigger's
and the rule's `entityType` is `None`, the empty string, or equal to the
trigger's `entityType` — exhaustively over all rules and subjects. -/
theorem triage_iff (d : Diagnostician) (p : Patient) :
    triage d p = true ↔
      d.actionType = p.triggerEvent.actionType ∧
      (d.entityType = none ∨ d.entityType = some "" ∨
        d.entityType = p.triggerEvent.entityType) := by
  unfold triage
  cases hA : (d.actionType == p.triggerEvent.actionType) with
  | false =>
    have hA' : d.actionType ≠ p.triggerEvent.actionType := by simpa using hA
    simp [hA']
  | true =>
    have hA' : d.actionType = p.triggerEvent.actionType := by simpa using hA
    cases hT : truthyStr d.entityType with
    | false =>
      rcases (truthyStr_eq_false_iff _).mp hT with h | h <;> simp [hA', h]
    | true =>
      have hnn : d.entityType ≠ none := by
        intro h; rw [h] at hT; simp [truthyStr] at hT
      have hne : d.entityType ≠ some "" := by
        intro h; rw [h] at hT; simp [truthyStr] at hT
      cases hB : (d.entityType == p.triggerEvent.entityType) with
      | true =>
        have hB' : d.entityType = p.triggerEvent.entityType := by simpa using hB
        simp [hA', hB']
      | false =>
        have hB' : d.entityType ≠ p.triggerEvent.entityType := by simpa using hB
        simp [hA', hB', hnn, hne]

/-- C10: an event with an absent `outcome` is guarded by the truthiness
test in `a.result and a.result.lower() == 'failed'`: it is counted as
non-failed, and `diagnose` (given parseable timestamps) still returns a
verdict rather than raising. -/
theorem diagnose_absent_outcome (d : Diagnostician) (p : Patient)
    (parse : String → Option Int) (events : List Event)
    (hparse : allParsable parse events = true) :
    (∀ e : Event, e.result = none → isFailedAction e = false) ∧
    ∃ b, diagnose d p parse (some events) = Except.ok b := by
  constructor
  · intro e he
    simp [isFailedAction, he, truthyStr]
  · unfold diagnose
    split
    · exact ⟨true, rfl⟩
    · simp only [hparse, if_true]
      exact ⟨_, rfl⟩

/-- Witness for C10: a history whose single event has no `actionState`:
the event is not counted as failed and `diagnose` returns a verdict. -/
theorem diagnose_absent_outcome_witness :
    isFailedAction (mkEvent "1" none) = false ∧
    (diagnose { actionType := "MOVE", entityType := none, failureCount := 2 }
      subjSucceeded natParse (some [mkEvent "1" none])).isOk = true := by
  constructor
  · exact (diagnose_absent_outcome
      { actionType := "MOVE", entityType := none, failureCount := 2 }
      subjSucceeded natParse [mkEvent "1" none] (by decide)).1
      (mkEvent "1" none) rfl
  · obtain ⟨b, hb⟩ := (diagnose_absent_outcome
      { actionType := "MOVE", entityType := none, failureCount := 2 }
      subjSucceeded natParse [mkEvent "1" none] (by decide)).2
    rw [hb]
    rfl

/-- C2 counterexample: two rules match the subject; the first rule's
history contains an unparsable `createTime`, the second rule's history is
empty (its `diagnose` would complete and record a negative outcome, as the
single-rule run shows).  The claim says the run continues with the
remaining rules; the source wraps the entire rule loop in one `try`, so
the run stops at the first rule and the second is never evaluated: the
two-rule run records no outcome at all for the second rule. -/
theorem run_unparsable_stops_cex :
    runAdmitMode natParse
      (fun d => if d.failureCount == 2
        then some [mkEvent "bogus" (some "FAILED")] else some [])
      subjSucceeded
      [{ actionType := "MOVE", entityType := none, failureCount := 2 },
       { actionType := "MOVE", entityType := none, failureCount := 3 }] =
      ([], some DiagError.unparsableTimestamp) ∧
    runAdmitMode natParse
      (fun d => if d.failureCount == 2
        then some [mkEvent "bogus" (some "FAILED")] else some [])
      subjSucceeded
      [{ actionType := "MOVE", entityType := none, failureCount := 3 }] =
      ([RuleOutcome.negative], none) := by
  decide

/-- C2 (amended): an unparsable history timestamp is fatal to the whole
admit run, not just to the one rule: when a triaged rule's `diagnose`
raises, the run's result is `([], some e)` for every list of remaining
rules — the remaining rules are never evaluated, and the error is caught
(and logged) only by the top-level handler. -/
theorem run_aborts_on_diagnose_error (parse : String → Option Int)
    (fetch : Diagnostician → Option (List Event)) (p : Patient)
    (d : Diagnostician) (rest : List Diagnostician) (e : DiagError)
    (ht : triage d p = true)
    (he : diagnose d p parse (fetch d) = Except.error e) :
    runAdmitMode parse fetch p (d :: rest) = ([], some e) := by
  simp [runAdmitMode, ht, he]

/-- Witness for C2's amended claim: the aborting two-rule run. -/
theorem run_aborts_on_diagnose_error_witness :
    runAdmitMode natParse (fun _ => some [mkEvent "bogus" (some "FAILED")])
      subjSucceeded
      [{ actionType := "MOVE", entityType := none, failureCount := 2 },
       { actionType := "MOVE", entityType := none, failureCount := 3 }] =
      ([], some DiagError.unparsableTimestamp) :=
  run_aborts_on_diagnose_error _ _ _ _ _ _ (by decide) (by decide)

/-- C3: `discharge_eligible_patients` does fetch the members and overwrite
the collection with the empty member list, but the returned "former
members as freshly constructed Subjects" cannot be constructed: group
members are entity DTOs (the same `discharge` reads them as `m['uuid']`),
while `Patient.__init__` requires the action-script shape
`dto['actionItem'][0]...`.  On a group holding one entity-shaped member,
the group is cleared and the construction raises `KeyError('actionItem')`
instead of returning a `Patient`. -/
theorem discharge_eligible_member_cex :
    discharge_eligible_patients ⟨[Dto.obj [("uuid", Dto.str "vm-1")]]⟩ =
      (⟨[]⟩, Except.error (PyErr.keyError "actionItem")) := by
  rfl

/-- Reachable ward-factory states: every cached ward identity was
allocated (is below `nextId`), and distinct cache entries hold distinct
ward identities.  `WardFactory.init` satisfies it and `getWard` preserves
it. -/
def FactoryInv (st : WardFactory) : Prop :=
  (∀ kv ∈ st.cache, kv.2 < st.nextId) ∧
  st.cache.Pairwise fun a b => a.2 ≠ b.2

/-- The empty factory is well-formed. -/
theorem factoryInv_init : FactoryInv WardFactory.init :=
  ⟨fun kv h => absurd h (List.not_mem_nil kv), List.Pairwise.nil⟩

/-- After `get_ward`, the returned ward is cached under the config's key. -/
theorem getWard_mem (st : WardFactory) (c : WardConfig) :
    (uniqueWardKey c, (getWard st c).2) ∈ (getWard st c).1.cache := by
  unfold getWard
  cases hf : st.cache.find? fun kv => kv.1 == uniqueWardKey c with
  | none => simp
  | some kv =>
    have hm := List.mem_of_find?_eq_some hf
    have hp : kv.1 = uniqueWardKey c := by simpa using List.find?_some hf
    simpa [← hp] using hm

/-- Calling `get_ward` preserves factory well-formedness. -/
theorem getWard_inv (st : WardFactory) (c : WardConfig)
    (h : FactoryInv st) : FactoryInv (getWard st c).1 := by
  unfold getWard
  cases hf : st.cache.find? fun kv => kv.1 == uniqueWardKey c with
  | some kv => exact h
  | none =>
    obtain ⟨h1, h2⟩ := h
    refine ⟨?_, ?_⟩
    · intro kv hkv
      rcases List.mem_cons.mp hkv with h | h
      · rw [h]; exact Nat.lt_succ_self _
      · exact Nat.lt_trans (h1 kv h) (Nat.lt_succ_self _)
    · refine List.Pairwise.cons ?_ h2
      intro b hb
      have := h1 b hb
      simp only []
      omega

/-- Calling `get_ward` on a cache hit returns the cached ward, unchanged state. -/
theorem getWard_eq_of_find?_some (st : WardFactory) (c : WardConfig)
    (kv : String × Nat)
    (hf : st.cache.find? (fun kv => kv.1 == uniqueWardKey c) = some kv) :
    getWard st c = (st, kv.2) := by
  unfold getWard
  rw [hf]

/-- Calling `get_ward` on a cache miss allocates and caches a fresh ward. -/
theorem getWard_eq_of_find?_none (st : WardFactory) (c : WardConfig)
    (hf : st.cache.find? (fun kv => kv.1 == uniqueWardKey c) = none) :
    getWard st c =
      (⟨(uniqueWardKey c, st.nextId) :: st.cache, st.nextId + 1⟩, st.nextId) := by
  unfold getWard
  rw [hf]

/-- Two `get_ward` calls whose configs map to the same cache key return
the same ward instance. -/
theorem getWard_snd_same_key (st : WardFactory) (c1 c2 : WardConfig)
    (hk : uniqueWardKey c2 = uniqueWardKey c1) :
    (getWard (getWard st c1).1 c2).2 = (getWard st c1).2 := by
  unfold getWard
  rw [hk]
  cases hf : st.cache.find? fun kv => kv.1 == uniqueWardKey c1 with
  | some kv => simp [hf]
  | none => simp [hf, List.find?_cons]

/-- C8: `get_ward` memoizes by the `_unique_ward_key`.  From any
well-formed factory state: (1) two calls with the same config return the
identical cached instance; (2) for the `vmt` (group-membership) kind the
key includes the group name, so configs differing in group name yield
distinct instances; (3) for any other kind the key is the kind alone, so
two configs of that same kind share one instance regardless of their
other fields. -/
theorem getWard_memoization (st : WardFactory) (c c1 c2 : WardConfig)
    (hinv : FactoryInv st) :
    ((getWard (getWard st c).1 c).2 = (getWard st c).2) ∧
    (c1.type = "vmt" → c2.type = "vmt" → c1.groupName ≠ c2.groupName →
      (getWard (getWard st c1).1 c2).2 ≠ (getWard st c1).2) ∧
    (c1.type ≠ "vmt" → c1.type = c2.type →
      (getWard (getWard st c1).1 c2).2 = (getWard st c1).2) := by
  refine ⟨getWard_snd_same_key st c c rfl, ?_, ?_⟩
  · intro h1 h2 hg
    have hkey : uniqueWardKey c1 ≠ uniqueWardKey c2 := by
      have e1 : uniqueWardKey c1 = "vmt" ++ "-" ++ c1.groupName := by
        simp [uniqueWardKey, h1]
      have e2 : uniqueWardKey c2 = "vmt" ++ "-" ++ c2.groupName := by
        simp [uniqueWardKey, h2]
      rw [e1, e2]
      intro hcontra
      apply hg
      have hd := congrArg String.data hcontra
      simp [String.data_append] at hd
      exact String.ext hd
    have hinv1 := getWard_inv st c1 hinv
    have hmem1 := getWard_mem st c1
    intro hEq
    rcases hf : (getWard st c1).1.cache.find?
        fun kv => kv.1 == uniqueWardKey c2 with _ | kv
    · -- cache miss: the second ward is freshly allocated, above every
      -- cached identity, in particular above the first ward's.
      have hlt : (getWard st c1).2 < (getWard st c1).1.nextId := hinv1.1 _ hmem1
      have h2nd : (getWard (getWard st c1).1 c2).2 = (getWard st c1).1.nextId :=
        congrArg Prod.snd (getWard_eq_of_find?_none _ _ hf)
      rw [h2nd] at hEq
      omega
    · -- cache hit: the hit entry's key differs from the first ward's key,
      -- so by pairwise-distinct identities the wards differ.
      have hm := List.mem_of_find?_eq_some hf
      have hp : kv.1 = uniqueWardKey c2 := by simpa using List.find?_some hf
      have h2nd : (getWard (getWard st c1).1 c2).2 = kv.2 :=
        congrArg Prod.snd (getWard_eq_of_find?_some _ _ kv hf)
      have hneq : (uniqueWardKey c1, (getWard st c1).2) ≠ kv := by
        intro h
        apply hkey
        rw [← hp, ← h]
      have hdist : (getWard st c1).2 ≠ kv.2 := List.Pairwise.forall
        (fun _ _ hab => Ne.symm hab) hinv1.2 hmem1 hm hneq
      rw [h2nd] at hEq
      exact hdist hEq.symm
  · intro hne hty
    refine getWard_snd_same_key st c1 c2 ?_
    have hne2 : c2.type ≠ "vmt" := by rw [← hty]; exact hne
    simp [uniqueWardKey, hne, hne2, hty]

/-- Witness for C8: from the empty factory, re-requesting group `"A"`
returns the cached instance, and group `"B"` gets a distinct one. -/
theorem getWard_memoization_witness :
    FactoryInv WardFactory.init ∧
    (getWard (getWard WardFactory.init
        { type := "vmt", groupName := "A" }).1
      { type := "vmt", groupName := "A" }).2 =
      (getWard WardFactory.init { type := "vmt", groupName := "A" }).2 ∧
    (getWard (getWard WardFactory.init
        { type := "vmt", groupName := "A" }).1
      { type := "vmt", groupName := "B" }).2 ≠
      (getWard WardFactory.init { type := "vmt", groupName := "A" }).2 := by
  refine ⟨factoryInv_init, ?_, ?_⟩
  · exact (getWard_memoization WardFactory.init
      { type := "vmt", groupName := "A" } { type := "vmt", groupName := "A" }
      { type := "vmt", groupName := "A" } factoryInv_init).1
  · exact (getWard_memoization WardFactory.init
      { type := "vmt", groupName := "A" } { type := "vmt", groupName := "A" }
      { type := "vmt", groupName := "B" } factoryInv_init).2.1 rfl rfl
      (by decide)

end Quarantine
